import Mathlib

/-!
Shallow embedding of the MQ131 ozone-sensor driver core (`src/MQ131.cpp`).

Floating-point values of the C++ code are modelled as exact rationals (`ℚ`);
the decimal literals of the source are transcribed as exact fractions.
Machine integers are modelled as `ℕ`/`ℤ` with explicit `% 2 ^ w` where the
source's fixed width matters (the two `uint8_t` counters of `calibrate`).
The Arduino I/O collaborators (`analogRead`, `digitalWrite`, `millis`,
`delay`, debug stream) are abstracted as explicit inputs; the debug
stream never affects control flow and is dropped.
-/

namespace MQ131

/-- The sensor variant tag `MQ131Model` of `MQ131.h` (the three cases
dispatched on in `MQ131.cpp`). -/
inductive MQ131Model where
  | LOW_CONCENTRATION
  | ETC_CONCENTRATION
  | HIGH_CONCENTRATION
deriving DecidableEq

/-- The concentration unit tag `MQ131Unit` used by `convert` and `getO3`. -/
inductive MQ131Unit where
  | PPM
  | PPB
  | MG_M3
  | UG_M3
deriving DecidableEq

/-- The mutable fields of `MQ131Class` that the embedded operations read or
write.  `secLastStart` and `secToRead` are the C++ `long` fields (`-1` is the
not-running sentinel for `secLastStart`); `lastValueRs` is the `float` field
holding the last measured resistance (negative means never sampled);
`temperatureCelsuis` is the `int8_t` field (source spelling kept) and
`humidityPercent` the `uint8_t` field. -/
structure MQ131State where
  model : MQ131Model
  valueRL : ℚ
  valueR0 : ℚ
  secLastStart : ℤ
  secToRead : ℤ
  lastValueRs : ℚ
  temperatureCelsuis : ℤ
  humidityPercent : ℕ

/-- Result type of a float computation that may leave the finite range:
`fin q` is an ordinary finite value, `inf` is the IEEE positive infinity
produced by dividing a positive float by `0.0` (and propagated through the
subsequent subtraction and multiplication by the positive load resistance). -/
inductive FVal where
  | fin : ℚ → FVal
  | inf : FVal
deriving DecidableEq

/-- Embedding of `MQ131Class::readRs` (MQ131.cpp lines 149-157):
`vRL = valueSensor / 1024.0 * 5.0`, `rS = (5.0 / vRL - 1.0) * valueRL`.
There is no guard in the source: when `valueSensor = 0` the division
`5.0 / vRL` is a float division by zero yielding IEEE `+inf`, and
`(+inf - 1.0) * valueRL` stays `+inf` for the positive load resistance,
which is modelled by the `FVal.inf` branch. -/
def readRs (valueSensor : ℕ) (valueRL : ℚ) : FVal :=
  let vRL : ℚ := (valueSensor : ℚ) / 1024 * 5
  if vRL = 0 then FVal.inf
  else FVal.fin ((5 / vRL - 1) * valueRL)

/-- The C cast `(uint32_t)x` applied to a nonnegative float in `calibrate`:
truncation toward zero, reduced modulo `2 ^ 32`.  `Int.tdiv` is Lean's
truncating division, matching the C cast on the nonnegative readings the
sensor produces. -/
def toU32 (q : ℚ) : ℕ := (Int.tdiv q.num (q.den : ℤ)).toNat % 2 ^ 32

/-- The three humidity-tier linear models of `MQ131Class::getEnvCorrectRatio`
(MQ131.cpp line 174): `Hratio30 = -0.0141 * temperatureCelsuis + 1.5623`. -/
def Hratio30 (temperatureCelsuis : ℤ) : ℚ :=
  -(141 / 10000) * temperatureCelsuis + 15623 / 10000

/-- MQ131.cpp line 175: `Hratio60 = -0.0119 * temperatureCelsuis + 1.3261`. -/
def Hratio60 (temperatureCelsuis : ℤ) : ℚ :=
  -(119 / 10000) * temperatureCelsuis + 13261 / 10000

/-- MQ131.cpp line 176: `Hratio85 = -0.0103 * temperatureCelsuis + 1.1507`. -/
def Hratio85 (temperatureCelsuis : ℤ) : ℚ :=
  -(103 / 10000) * temperatureCelsuis + 11507 / 10000

/-- The `humidityPercent > 60` branch of `getEnvCorrectRatio`
(MQ131.cpp line 185): interpolation between the 60% and 85% curves.
All arithmetic is float arithmetic in the source (the integer subexpressions
are promoted), so no integer truncation occurs. -/
def envUpper (temperatureCelsuis : ℤ) (humidityPercent : ℕ) : ℚ :=
  Hratio60 temperatureCelsuis +
    (Hratio85 temperatureCelsuis - Hratio60 temperatureCelsuis) *
      ((humidityPercent : ℚ) - 60) / (85 - 60)

/-- The `humidityPercent ≤ 60` branch of `getEnvCorrectRatio`
(MQ131.cpp line 190): interpolation between the 30% and 60% curves. -/
def envLower (temperatureCelsuis : ℤ) (humidityPercent : ℕ) : ℚ :=
  Hratio30 temperatureCelsuis +
    (Hratio60 temperatureCelsuis - Hratio30 temperatureCelsuis) *
      ((humidityPercent : ℚ) - 30) / (60 - 30)

/-- Embedding of `MQ131Class::getEnvCorrectRatio` (MQ131.cpp lines 171-191),
a function of the stored `temperatureCelsuis` and `humidityPercent` fields:
the exact reference point (60%, 20°C) short-circuits to `1.06`, otherwise the
humidity selects the interpolation branch. -/
def getEnvCorrectRatio (temperatureCelsuis : ℤ) (humidityPercent : ℕ) : ℚ :=
  if humidityPercent = 60 ∧ temperatureCelsuis = 20 then 106 / 100
  else if humidityPercent > 60 then envUpper temperatureCelsuis humidityPercent
  else envLower temperatureCelsuis humidityPercent

/-- Embedding of `MQ131Class::convert` (MQ131.cpp lines 231-266).
`48.0 / 22.71108` is transcribed exactly; the local `concentration`
variable mirrors the source.  The source's `default` branch returns the
input unchanged; it is unreachable for the four declared units, which are
all handled by explicit cases. -/
def convert (input : ℚ) (unitIn unitOut : MQ131Unit) : ℚ :=
  if unitIn = unitOut then input
  else
    match unitOut with
    | .PPM => input / 1000
    | .PPB => input * 1000
    | .MG_M3 =>
        let concentration := if unitIn = .PPM then input else input / 1000
        concentration * 48 / (2271108 / 100000)
    | .UG_M3 =>
        let concentration := if unitIn = .PPB then input else input * 1000
        concentration * 48 / (2271108 / 100000)

/-- Embedding of `MQ131Class::getO3` (MQ131.cpp lines 196-226).
The C library call `pow(ratio, e)` is real exponentiation on floats; it is
abstracted as an explicit function argument `powf`, so every theorem below
holds for the actual `pow`.  The structure of the source is kept: sentinel
check on `lastValueRs`, then a switch on the model with the per-variant
scale, exponent and native unit inlined literally. -/
def getO3 (powf : ℚ → ℚ → ℚ) (s : MQ131State) (unit : MQ131Unit) : ℚ :=
  if s.lastValueRs < 0 then 0
  else
    match s.model with
    | .LOW_CONCENTRATION =>
        let ratio := s.lastValueRs / s.valueR0 *
          getEnvCorrectRatio s.temperatureCelsuis s.humidityPercent
        convert (94783 / 10000 * powf ratio (23348 / 10000)) .PPB unit
    | .ETC_CONCENTRATION =>
        let ratio := s.lastValueRs / s.valueR0 *
          getEnvCorrectRatio s.temperatureCelsuis s.humidityPercent
        convert (238887 / 10000 * powf ratio (11101 / 10000)) .PPB unit
    | .HIGH_CONCENTRATION =>
        let ratio := s.lastValueRs / s.valueR0 *
          getEnvCorrectRatio s.temperatureCelsuis s.humidityPercent
        convert (81399 / 10000 * powf ratio (23297 / 10000)) .PPM unit

/-- Per-variant power-law scale, transcribed from the specification's
variant table (section 4.4) to be compared against the switch of `getO3`. -/
def modelScale : MQ131Model → ℚ
  | .LOW_CONCENTRATION => 94783 / 10000
  | .ETC_CONCENTRATION => 238887 / 10000
  | .HIGH_CONCENTRATION => 81399 / 10000

/-- Per-variant power-law exponent, transcribed from the specification's
variant table (section 4.4). -/
def modelExponent : MQ131Model → ℚ
  | .LOW_CONCENTRATION => 23348 / 10000
  | .ETC_CONCENTRATION => 11101 / 10000
  | .HIGH_CONCENTRATION => 23297 / 10000

/-- Per-variant native output unit, transcribed from the specification's
variant table (section 4.4). -/
def modelNativeUnit : MQ131Model → MQ131Unit
  | .LOW_CONCENTRATION => .PPB
  | .ETC_CONCENTRATION => .PPB
  | .HIGH_CONCENTRATION => .PPM

/-- Embedding of `MQ131Class::isTimeToRead` (MQ131.cpp lines 111-121).
`nowSec` is `millis() / 1000`; the source compares it against
`secLastStart + getTimeToRead()`.  The comparison is modelled over `ℤ`,
which agrees with the source whenever `secLastStart` and `secToRead` hold
the nonnegative values written by `startHeater` and `setTimeToRead`. -/
def isTimeToRead (nowSec : ℕ) (s : MQ131State) : Bool :=
  if s.secLastStart < 0 then false
  else if (nowSec : ℤ) ≥ s.secLastStart + s.secToRead then true
  else false

/-- Embedding of `MQ131Class::stopHeater` (MQ131.cpp lines 126-129): the
heater pin write is I/O outside the state model; the state effect is
`secLastStart = -1`. -/
def stopHeater (s : MQ131State) : MQ131State := { s with secLastStart := -1 }

/-- Embedding of `MQ131Class::startHeater` (MQ131.cpp lines 103-106):
records `millis() / 1000` as the start timestamp. -/
def startHeater (nowSec : ℕ) (s : MQ131State) : MQ131State :=
  { s with secLastStart := (nowSec : ℤ) }

/-- The calibration loop of `MQ131Class::calibrate` (MQ131.cpp lines
294-311).  `readings i` is the value `readRs()` returns on the i-th
iteration (the sensor abstracted as a stream of finite float values);
`threshold` is the `uint8_t` `timeToReadConsistency`
(`MQ131_DEFAULT_STABLE_CYCLE`); `lastRsValue` is the provisional baseline
(`float`); `countReadInRow` and `count` are the two `uint8_t` counters,
kept reduced modulo `2 ^ 8` at each increment; `i` is a ghost index counting
the iterations actually performed.  The source loop
`while (countReadInRow <= timeToReadConsistency)` has no bound, so the
embedding is fuel-indexed: `none` means the loop did not terminate within
`fuel` iterations, `some (lastRsValue, count, i)` is the state at exit
(the source then runs `setR0(lastRsValue); setTimeToRead(count)`). -/
def calibrateLoop (readings : ℕ → ℚ) (threshold : ℕ) :
    ℕ → ℚ → ℕ → ℕ → ℕ → Option (ℚ × ℕ × ℕ)
  | 0, _, _, _, _ => none
  | fuel + 1, lastRsValue, countReadInRow, count, i =>
    if countReadInRow ≤ threshold then
      let value := readings i
      if toU32 lastRsValue ≠ toU32 value then
        calibrateLoop readings threshold fuel value 0 ((count + 1) % 2 ^ 8) (i + 1)
      else
        calibrateLoop readings threshold fuel lastRsValue
          ((countReadInRow + 1) % 2 ^ 8) ((count + 1) % 2 ^ 8) (i + 1)
    else
      some (lastRsValue, count, i)

/-- Embedding of `MQ131Class::calibrate` (MQ131.cpp lines 271-326): the
loop starts from `lastRsValue = 0`, `countReadInRow = 0`, `count = 0`.
On termination the first component is stored through `setR0` and the second
through `setTimeToRead`; the third is the number of loop iterations
performed. -/
def calibrate (readings : ℕ → ℚ) (threshold fuel : ℕ) : Option (ℚ × ℕ × ℕ) :=
  calibrateLoop readings threshold fuel 0 0 0 0

end MQ131

namespace MQ131

/-- Invariant of the calibration loop: the `uint8_t` cycle counter `count`
always equals the true iteration index `i` reduced modulo `2 ^ 8`, so the
stored warm-up duration is the iteration count modulo 256. -/
theorem calibrateLoop_count_mod (readings : ℕ → ℚ) (threshold : ℕ) (fuel : ℕ) :
    ∀ (lastRs : ℚ) (cnt count i : ℕ) (r0 : ℚ) (c n : ℕ),
      count = i % 2 ^ 8 →
      calibrateLoop readings threshold fuel lastRs cnt count i = some (r0, c, n) →
      c = n % 2 ^ 8 := by
  induction fuel with
  | zero =>
    intro lastRs cnt count i r0 c n _ heq
    simp [calibrateLoop] at heq
  | succ fuel ih =>
    intro lastRs cnt count i r0 c n h heq
    rw [calibrateLoop] at heq
    split at heq
    · dsimp only at heq
      split at heq
      · exact ih _ _ _ _ _ _ _ (by omega) heq
      · exact ih _ _ _ _ _ _ _ (by omega) heq
    · simp only [Option.some.injEq, Prod.mk.injEq] at heq
      obtain ⟨-, h2, h3⟩ := heq
      omega

/-- Concrete state for witnesses: LOW variant, RL = 10000 Ω, R0 = 1 MΩ,
heater off, last measured resistance 500 kΩ, reference conditions. -/
def wStateLow : MQ131State :=
  ⟨.LOW_CONCENTRATION, 10000, 1000000, -1, 72, 500000, 20, 60⟩

/-- Concrete state for witnesses: heater started at second 2, warm-up 3 s,
never sampled. -/
def hOnState : MQ131State :=
  ⟨.LOW_CONCENTRATION, 10000, 1000000, 2, 3, -1, 20, 60⟩

/-- Concrete state for witnesses: heater off (sentinel -1), never sampled. -/
def hOffState : MQ131State :=
  ⟨.LOW_CONCENTRATION, 10000, 1000000, -1, 3, -1, 20, 60⟩

/-- Concrete state for witnesses: no sample ever taken
(`lastValueRs` holds the negative sentinel). -/
def unsetState : MQ131State :=
  ⟨.ETC_CONCENTRATION, 10000, 1000000, -1, 3, -1, 20, 60⟩

/-- C1 (counterexample): with the constant reading 100 and stability
threshold 5, the calibration loop does NOT terminate after 6 iterations
with R0 = 100 and warm-up = 6: the run with ample fuel produces a
different outcome, and 6 iterations of fuel do not even suffice for the
loop to exit. -/
theorem calibrate_six_identical_ne_six :
    calibrate (fun _ => (100 : ℚ)) 5 20 ≠ some (100, 6, 6) ∧
      calibrate (fun _ => (100 : ℚ)) 5 6 = none := by
  exact ⟨by decide, by decide⟩

/-- C1 (amended): with a constant reading of 100 and stability threshold 5,
the calibration loop terminates after exactly 7 iterations — the first
iteration records 100 as the provisional baseline and resets the counter,
the next 6 raise `countReadInRow` to 6 > 5 — and on termination R0 is set
to 100 and the warm-up duration to 7. -/
theorem calibrate_const_hundred_seven_iters :
    calibrate (fun _ => (100 : ℚ)) 5 20 = some (100, 7, 7) := by
  decide

/-- C2: at the degenerate raw analog reading 0 the source performs no
guard: `vRL` is 0 and `readRs` computes `(5.0 / 0.0 - 1.0) * RL`, whose
value is the IEEE positive infinity (modelled `FVal.inf`), silently
returned instead of a clamped or distinguished invalid-sample value. -/
theorem readRs_zero_is_infinity : readRs 0 10000 = FVal.inf := by
  norm_num [readRs]

/-- C3: whenever the last measured resistance is set (nonnegative), `getO3`
computes `ratio = lastValueRs / valueR0 * getEnvCorrectRatio` and returns
`scale * pow ratio exponent` converted from the variant's native unit to
the requested unit, with (scale, exponent, native unit) given by the
variant table: (9.4783, 2.3348, PPB) for LOW, (23.8887, 1.1101, PPB) for
ETC, (8.1399, 2.3297, PPM) for HIGH. -/
theorem getO3_power_law (powf : ℚ → ℚ → ℚ) (s : MQ131State) (unit : MQ131Unit)
    (h : 0 ≤ s.lastValueRs) :
    getO3 powf s unit =
      convert (modelScale s.model *
        powf (s.lastValueRs / s.valueR0 *
          getEnvCorrectRatio s.temperatureCelsuis s.humidityPercent)
          (modelExponent s.model))
        (modelNativeUnit s.model) unit := by
  unfold getO3
  rw [if_neg (not_lt.mpr h)]
  cases s.model <;> rfl

/-- C3 (witness): the power-law theorem applied to a concrete LOW-variant
state with Rs = 500000, R0 = 1000000 at the reference conditions. -/
theorem getO3_power_law_witness :
    (0 : ℚ) ≤ wStateLow.lastValueRs ∧
      getO3 (fun a _ => a) wStateLow MQ131Unit.PPB =
        convert (modelScale wStateLow.model *
          (wStateLow.lastValueRs / wStateLow.valueR0 *
            getEnvCorrectRatio wStateLow.temperatureCelsuis wStateLow.humidityPercent))
          (modelNativeUnit wStateLow.model) MQ131Unit.PPB :=
  ⟨by norm_num [wStateLow],
   getO3_power_law (fun a _ => a) wStateLow MQ131Unit.PPB (by norm_num [wStateLow])⟩

/-- C4: `convert` is the identity when the units are equal, and otherwise
dispatches on the target unit only: to PPM it divides by 1000, to PPB it
multiplies by 1000, to MG_M3 it normalizes to PPM (identity if the input
unit is PPM, else division by 1000) times 48 / 22.71108, and to UG_M3 it
normalizes to PPB (identity if the input unit is PPB, else multiplication
by 1000) times the same constant; every case returns a value (the
source's unreachable `default` branch would return the input unchanged). -/
theorem convert_dispatch (x : ℚ) (unitIn unitOut : MQ131Unit) :
    convert x unitIn unitOut =
      if unitIn = unitOut then x
      else
        match unitOut with
        | .PPM => x / 1000
        | .PPB => x * 1000
        | .MG_M3 => (if unitIn = .PPM then x else x / 1000) * 48 / (2271108 / 100000)
        | .UG_M3 => (if unitIn = .PPB then x else x * 1000) * 48 / (2271108 / 100000) := by
  cases unitIn <;> cases unitOut <;> rfl

/-- C5: when no sample has ever been taken (the last measured resistance
holds the negative sentinel), `getO3` returns exactly 0 for every requested
unit and every exponentiation function, silently. -/
theorem getO3_unset_returns_zero (powf : ℚ → ℚ → ℚ) (s : MQ131State)
    (unit : MQ131Unit) (h : s.lastValueRs < 0) : getO3 powf s unit = 0 := by
  unfold getO3
  rw [if_pos h]

/-- C5 (witness): the sentinel theorem applied to a concrete never-sampled
state for two different requested units. -/
theorem getO3_unset_returns_zero_witness :
    getO3 (fun a _ => a) unsetState MQ131Unit.PPM = 0 ∧
      getO3 (fun a _ => a) unsetState MQ131Unit.UG_M3 = 0 :=
  ⟨getO3_unset_returns_zero (fun a _ => a) unsetState MQ131Unit.PPM
     (by norm_num [unsetState]),
   getO3_unset_returns_zero (fun a _ => a) unsetState MQ131Unit.UG_M3
     (by norm_num [unsetState])⟩

/-- C6: at the calibration reference point (20 °C, 60 %) the correction
ratio is exactly 1.06, short-circuiting the general interpolation: the
60 %-branch formula would instead give 1.0881 ≠ 1.06 at that point. -/
theorem envCorrect_reference_point :
    getEnvCorrectRatio 20 60 = 106 / 100 ∧
      envLower 20 60 = 10881 / 10000 ∧ ((10881 : ℚ) / 10000 ≠ 106 / 100) :=
  ⟨rfl, by norm_num [envLower, Hratio30, Hratio60], by norm_num⟩

/-- C7: for every temperature the two interpolation branches of the
environmental correction agree at humidity = 60: the upper branch
(60–85 % curve blend) and the lower branch (30–60 % curve blend) both
evaluate to `-0.0119 * t + 1.3261` there, so the piecewise function is
continuous across the humidity-60 boundary. -/
theorem envCorrect_continuous_at_sixty (t : ℤ) :
    envUpper t 60 = envLower t 60 ∧
      envUpper t 60 = -(119 / 10000) * t + 13261 / 10000 := by
  constructor
  · unfold envUpper envLower Hratio30 Hratio60 Hratio85
    push_cast
    ring
  · unfold envUpper Hratio60 Hratio85
    push_cast
    ring

/-- C8: converting from PPB to PPM divides by 1000, and the round trip
PPB → PPM → PPB restores the original value exactly (exact rational
arithmetic models the well-formed float case). -/
theorem convert_ppb_ppm_roundtrip (x : ℚ) :
    convert x MQ131Unit.PPB MQ131Unit.PPM = x / 1000 ∧
      convert (convert x MQ131Unit.PPB MQ131Unit.PPM)
        MQ131Unit.PPM MQ131Unit.PPB = x := by
  constructor
  · rfl
  · show x / 1000 * 1000 = x
    field_simp

/-- C9: `isTimeToRead` returns false whenever the start timestamp holds the
not-running sentinel (negative), and in the running state it returns true
exactly when the elapsed time since the recorded start reaches the
configured warm-up duration; `stopHeater` resets the timestamp to the
sentinel -1, after which `isTimeToRead` is false at every time. -/
theorem isTimeToRead_spec (nowSec : ℕ) (s : MQ131State) :
    (s.secLastStart < 0 → isTimeToRead nowSec s = false) ∧
    (0 ≤ s.secLastStart →
      (isTimeToRead nowSec s = true ↔
        s.secToRead ≤ (nowSec : ℤ) - s.secLastStart)) ∧
    (stopHeater s).secLastStart = -1 ∧
    (∀ m : ℕ, isTimeToRead m (stopHeater s) = false) := by
  refine ⟨fun h => by simp [isTimeToRead, if_pos h], fun h => ?_, rfl,
    fun m => by simp [isTimeToRead, stopHeater]⟩
  rw [isTimeToRead, if_neg (not_lt.mpr h)]
  split
  · simp only [true_iff]
    omega
  · simp only [Bool.false_eq_true, false_iff]
    omega

/-- C9 (witness): the heater-gate theorem applied to concrete states —
never started (false), started at second 2 with warm-up 3 read at second 5
(true), and stopped (false again). -/
theorem isTimeToRead_spec_witness :
    isTimeToRead 5 hOffState = false ∧ isTimeToRead 5 hOnState = true ∧
      isTimeToRead 9 (stopHeater hOnState) = false :=
  ⟨(isTimeToRead_spec 5 hOffState).1 (by decide),
   ((isTimeToRead_spec 5 hOnState).2.1 (by decide)).mpr (by decide),
   (isTimeToRead_spec 9 (stopHeater hOnState)).1 (by decide)⟩

/-- C10: the calibration counters are 8-bit: for every run of the
calibration loop that terminates after `n` iterations, the cycle counter
stored as the warm-up duration equals `n % 256` (so it silently wraps for
calibrations longer than 255 cycles). -/
theorem calibrate_warmup_wraps_mod_256 (readings : ℕ → ℚ)
    (threshold fuel : ℕ) (r0 : ℚ) (c n : ℕ)
    (h : calibrate readings threshold fuel = some (r0, c, n)) :
    c = n % 2 ^ 8 :=
  calibrateLoop_count_mod readings threshold fuel 0 0 0 0 r0 c n (by decide) h

/-- C10 (witness): the wrap theorem applied to the concrete constant-100
run, which terminates after 7 iterations storing warm-up 7 = 7 % 256. -/
theorem calibrate_warmup_wraps_mod_256_witness :
    calibrate (fun _ => (100 : ℚ)) 5 20 = some (100, 7, 7) ∧
      (7 : ℕ) = 7 % 2 ^ 8 :=
  ⟨by decide,
   calibrate_warmup_wraps_mod_256 (fun _ => (100 : ℚ)) 5 20 100 7 7 (by decide)⟩

end MQ131
